import Mathlib

/-!
Shallow embedding of the client-side session controller in
`src/frontend/static/script.js`: the roadmap session state (module-level
globals `currentStepIndex`, `totalSteps`, `roadmapData`, `currentQuiz`,
`currentFlashcards`, `currentFlashcardIndex`), the cursor mutations
(`nextStep`, `previousStep`, the minimap jump), the pure text transforms
(flashcard extraction, chat markdown stripping) and the failure handling of
the backend calls.  Network requests are modelled by passing the backend
response (or a network/parse error) as an explicit `Except` argument; DOM
panels that the claims mention (chat transcript, quiz panel, flashcard flip
state) are carried as fields of the state.  Text is modelled as `List Char`
(JavaScript strings; the sources are ASCII so UTF-16 length and code-point
length agree).
-/

set_option maxRecDepth 6000

namespace AssistantL

/-- JavaScript `\s` for the characters that can occur here (ASCII whitespace
plus no-break space). Used by `String.prototype.trim` and the blank-line
regex in `addChatMessage`. -/
def isJsWhitespace (c : Char) : Bool :=
  c == ' ' || c == '\t' || c == '\n' || c == '\r' ||
  c == '\x0b' || c == '\x0c' || c == ' '

/-- JavaScript `String.prototype.trim`: drop leading and trailing
whitespace. -/
def jsTrimL (l : List Char) : List Char :=
  ((l.dropWhile isJsWhitespace).reverse.dropWhile isJsWhitespace).reverse

/-- The `.replace(/[*#]/g, '')` step of `addChatMessage`: remove every
literal `*` and `#`. -/
def stripStarHash (l : List Char) : List Char :=
  l.filter (fun c => !(c == '*' || c == '#'))

/-- Greedy match of the tail `\s*\n` of the regex `/\n\s*\n/` against a
list (the characters following an initial newline): returns the remainder
after the farthest newline reachable through whitespace, or `none` when no
such newline exists (no match). -/
def blankRunTail : List Char → Option (List Char)
  | [] => none
  | c :: rest =>
    if isJsWhitespace c then
      match blankRunTail rest with
      | some r => some r
      | none => if c == '\n' then some rest else none
    else none

/-- Left-to-right scan implementing the global replacement
`.replace(/\n\s*\n/g, '\n')` of `addChatMessage`; the fuel argument bounds
the recursion (each match consumes at least one character). -/
def collapseGo : Nat → List Char → List Char
  | 0, l => l
  | _ + 1, [] => []
  | fuel + 1, c :: rest =>
    if c == '\n' then
      match blankRunTail rest with
      | some r => '\n' :: collapseGo fuel r
      | none => c :: collapseGo fuel rest
    else c :: collapseGo fuel rest

/-- The `.replace(/\n\s*\n/g, '\n')` step of `addChatMessage`: collapse
each run of blank lines to a single newline. -/
def collapseBlankLines (l : List Char) : List Char :=
  collapseGo l.length l

/-- The full display transform of `addChatMessage` (script.js lines
602-605): remove `*` and `#`, collapse blank-line runs, then trim. -/
def cleanChatText (m : List Char) : List Char :=
  jsTrimL (collapseBlankLines (stripStarHash m))

/-- Display transform as the spec sentence words it (strip `*` and `#` and
collapse blank lines, with no final trim); kept for comparison with
`cleanChatText`, which is the transform the code applies. -/
def specChatRender (m : List Char) : List Char :=
  collapseBlankLines (stripStarHash m)

/-- JavaScript `String.prototype.split(':')`: the list of segments between
colons (never empty; `"".split(':')` is `[""]`). -/
def jsSplit : List Char → List (List Char)
  | [] => [[]]
  | c :: rest =>
    if c == ':' then [] :: jsSplit rest
    else
      match jsSplit rest with
      | [] => [[c]]
      | s :: ss => (c :: s) :: ss

/-- One step of a roadmap (script.js: `data.steps` entries). -/
structure Step where
  number : Nat
  title : List Char
  details : List (List Char)
deriving Repr, DecidableEq

/-- A flashcard derived from a step detail line. -/
structure Flashcard where
  front : List Char
  back : List Char
deriving Repr, DecidableEq

/-- A quiz question as returned by `/api/generate-quiz`. -/
structure QuizQuestion where
  question : List Char
  options : List (Char × List Char)
deriving Repr, DecidableEq

/-- The roadmap object: the `/api/start-topic` response with the chosen
persona and difficulty patched in (`startLearning` lines 264-266). -/
structure Roadmap where
  topic : List Char
  persona : List Char
  difficulty : List Char
  steps : List Step
deriving Repr, DecidableEq

/-- A chat transcript entry role. -/
inductive ChatRole
  | user
  | assistant
deriving Repr, DecidableEq

/-- A rendered chat transcript entry; `text` is the cleaned text as placed
in the DOM by `addChatMessage`. -/
structure ChatMessage where
  role : ChatRole
  text : List Char
deriving Repr, DecidableEq

/-- The module-level mutable state of script.js (lines 1-6) together with
the DOM panels the claims are about: the chat transcript
(`chatMessages.innerHTML`), the rendered quiz panel
(`quizContent.innerHTML`, empty list when cleared) and the flashcard flip
class. -/
structure SessionState where
  currentStepIndex : Nat
  totalSteps : Nat
  roadmapData : Option Roadmap
  currentQuiz : Option (List QuizQuestion)
  currentFlashcards : List Flashcard
  currentFlashcardIndex : Nat
  flashcardFlipped : Bool
  chatMessages : List ChatMessage
  quizContent : List QuizQuestion
deriving Repr, DecidableEq

/-- The initial values of the script.js globals (lines 1-6) with empty DOM
panels. -/
def initState : SessionState :=
  { currentStepIndex := 0
    totalSteps := 0
    roadmapData := none
    currentQuiz := none
    currentFlashcards := []
    currentFlashcardIndex := 0
    flashcardFlipped := false
    chatMessages := []
    quizContent := [] }

/-- Parsed body of a `/api/next-step` response. -/
structure NextStepResponse where
  success : Bool
  completed : Bool
  currentStepIndex : Nat
deriving Repr, DecidableEq

/-- Parsed body of a `/api/start-topic` response. -/
structure StartTopicResponse where
  success : Bool
  topic : List Char
  steps : List Step
  error : Option (List Char)
deriving Repr, DecidableEq

/-- Parsed body of a `/api/chat` response. -/
structure ChatResponse where
  success : Bool
  response : List Char
deriving Repr, DecidableEq

/-- Parsed body of a `/api/submit-quiz` response. -/
structure SubmitQuizResponse where
  success : Bool
  score : Nat
  total : Nat
  percentage : Nat
deriving Repr, DecidableEq

/-- Parsed body of a `/api/generate-quiz` response. -/
structure GenerateQuizResponse where
  success : Bool
  questions : List QuizQuestion
  error : Option (List Char)
deriving Repr, DecidableEq

/-- The alert text `'Error: ' + msg` used by the catch blocks. -/
def errAlert (msg : List Char) : List Char :=
  "Error: ".toList ++ msg

/-- The fixed fallback chat text appended when the backend reports a chat
failure (script.js line 590). -/
def chatFallback : List Char :=
  "Sorry, I encountered an error. Please try again.".toList

/-- Card extraction for one detail line (`generateFlashcards` lines
349-363): a line with a colon is split on every colon and the first two
segments become front and back; otherwise a line longer than 20 characters
becomes a Key Concept card; otherwise no card. -/
def extractCard (detail : List Char) : Option Flashcard :=
  if detail.contains ':' then
    let parts := jsSplit detail
    some { front := jsTrimL (parts.headD [])
           back := jsTrimL ((parts.drop 1).headD []) }
  else if detail.length > 20 then
    some { front := "Key Concept".toList, back := jsTrimL detail }
  else
    none

/-- The pure transform at the heart of `generateFlashcards`: one optional
card per detail line, in detail order. -/
def generateFlashcardsFrom (details : List (List Char)) : List Flashcard :=
  details.filterMap extractCard

/-- `displayFlashcard` (lines 369-383): removes the `flipped` class; the
card text and counter it writes are recomputed from the fields already in
the state, so only the flip state changes here. -/
def displayFlashcard (s : SessionState) : SessionState :=
  { s with flashcardFlipped := false }

/-- `generateFlashcards` (lines 342-367): guard on a loaded roadmap and an
existing current step, then recompute the card list, reset the pagination
index to 0 and re-display. -/
def generateFlashcards (s : SessionState) : SessionState :=
  match s.roadmapData with
  | none => s
  | some r =>
    match r.steps[s.currentStepIndex]? with
    | none => s
    | some step =>
      displayFlashcard
        { s with
          currentFlashcards := generateFlashcardsFrom step.details
          currentFlashcardIndex := 0 }

/-- `updateLearningScreen` (lines 286-308) restricted to the modelled
state: early return unless a roadmap is loaded and the cursor is below
`totalSteps`; otherwise recompute the flashcards for the current step and
clear the displayed chat transcript.  The guide, note, minimap, resources
and progress-bar writes touch only unmodelled DOM; note that neither
`currentQuiz` nor the quiz panel is touched. -/
def updateLearningScreen (s : SessionState) : SessionState :=
  match s.roadmapData with
  | none => s
  | some _ =>
    if s.currentStepIndex ≥ s.totalSteps then s
    else
      let s1 := generateFlashcards s
      { s1 with chatMessages := [] }

/-- `previousStep` (lines 521-526): local guarded decrement. -/
def previousStep (s : SessionState) : SessionState :=
  if s.currentStepIndex = 0 then s
  else updateLearningScreen { s with currentStepIndex := s.currentStepIndex - 1 }

/-- The minimap item click handler (lines 333-336): set the cursor to the
item index and refresh the screen. -/
def jumpToStep (i : Nat) (s : SessionState) : SessionState :=
  updateLearningScreen { s with currentStepIndex := i }

/-- The user-visible outcome of one `nextStep` call: whether `/api/next-step`
was fetched, whether the completion modal was shown, and the text of the
`alert` if one was raised. -/
structure StepAdvanceOutcome where
  backendCalled : Bool
  completionShown : Bool
  alert : Option (List Char)
deriving Repr, DecidableEq

/-- `nextStep` (lines 494-519).  At the last index (`currentStepIndex >=
totalSteps - 1`, rendered over Nat as `currentStepIndex + 1 ≥ totalSteps`)
the completion modal is shown without any fetch.  Otherwise the backend
response decides: a network or parse error alerts and leaves the state
alone; a `success` response either shows the completion modal
(`completed`) or adopts the returned index unvalidated and refreshes the
screen; a non-`success` response is silently ignored. -/
def nextStep (resp : Except (List Char) NextStepResponse) (s : SessionState) :
    SessionState × StepAdvanceOutcome :=
  if s.currentStepIndex + 1 ≥ s.totalSteps then
    (s, { backendCalled := false, completionShown := true, alert := none })
  else
    match resp with
    | .error e =>
      (s, { backendCalled := true, completionShown := false, alert := some (errAlert e) })
    | .ok d =>
      if d.success then
        if d.completed then
          (s, { backendCalled := true, completionShown := true, alert := none })
        else
          (updateLearningScreen { s with currentStepIndex := d.currentStepIndex },
           { backendCalled := true, completionShown := false, alert := none })
      else
        (s, { backendCalled := true, completionShown := false, alert := none })

/-- `startLearning` (lines 236-284): empty trimmed topic stops before any
network activity; a network/parse error or a non-`success` response alerts
and leaves the state alone; a `success` response replaces the roadmap
wholesale, resets the cursor to 0 and refreshes the screen.  The second
component is the alert raised, if any. -/
def startLearning (topicInput persona difficulty : List Char)
    (resp : Except (List Char) StartTopicResponse) (s : SessionState) :
    SessionState × Option (List Char) :=
  let topic := jsTrimL topicInput
  if topic = [] then (s, none)
  else
    match resp with
    | .error e => (s, some (errAlert e))
    | .ok d =>
      if d.success then
        (updateLearningScreen
          { s with
            roadmapData := some { topic := d.topic, persona := persona,
                                  difficulty := difficulty, steps := d.steps }
            totalSteps := d.steps.length
            currentStepIndex := 0 },
         none)
      else
        (s, some (errAlert (d.error.getD "Failed to generate roadmap".toList)))

/-- `resetToStart` (lines 736-746): cursor to 0, roadmap discarded, chat
and quiz panels emptied.  `currentQuiz`, `currentFlashcards`,
`currentFlashcardIndex` and `totalSteps` are not touched. -/
def resetToStart (s : SessionState) : SessionState :=
  { s with
    currentStepIndex := 0
    roadmapData := none
    chatMessages := []
    quizContent := [] }

/-- `generateQuiz` (lines 635-658): on a `success` response store the
questions as the authoritative quiz and render them; otherwise alert. -/
def generateQuiz (resp : Except (List Char) GenerateQuizResponse) (s : SessionState) :
    SessionState × Option (List Char) :=
  match resp with
  | .error e => (s, some (errAlert e))
  | .ok d =>
    if d.success then
      ({ s with currentQuiz := some d.questions, quizContent := d.questions }, none)
    else
      (s, some ("Error generating quiz: ".toList ++ d.error.getD "Unknown error".toList))

/-- `addChatMessage` (lines 597-610): append one cleaned entry to the
displayed transcript. -/
def addChatMessage (role : ChatRole) (message : List Char) (s : SessionState) :
    SessionState :=
  { s with chatMessages := s.chatMessages ++ [{ role := role, text := cleanChatText message }] }

/-- `sendChat` (lines 569-595): trim the input, stop when empty, append the
user message optimistically, then append the assistant reply, the fixed
fallback, or `'Error: ' + message` according to the response.  The second
component is the message sent to `/api/chat` (`none` when nothing was
sent). -/
def sendChat (input : List Char) (resp : Except (List Char) ChatResponse)
    (s : SessionState) : SessionState × Option (List Char) :=
  let message := jsTrimL input
  if message = [] then (s, none)
  else
    let s1 := addChatMessage .user message s
    match resp with
    | .error e => (addChatMessage .assistant (errAlert e) s1, some message)
    | .ok d =>
      if d.success then (addChatMessage .assistant d.response s1, some message)
      else (addChatMessage .assistant chatFallback s1, some message)

/-- The score figures rendered by `displayQuizResults`. -/
structure QuizResultsView where
  score : Nat
  total : Nat
  percentage : Nat
deriving Repr, DecidableEq

/-- `submitQuiz` (lines 696-719): a network/parse error alerts; a `success`
response shows the results modal; a non-`success` response does nothing.
Components: new state, alert raised, results displayed. -/
def submitQuiz (resp : Except (List Char) SubmitQuizResponse) (s : SessionState) :
    SessionState × Option (List Char) × Option QuizResultsView :=
  match resp with
  | .error e => (s, some (errAlert e), none)
  | .ok d =>
    if d.success then
      (s, none, some { score := d.score, total := d.total, percentage := d.percentage })
    else
      (s, none, none)

/-- `nextFlashcard` (lines 385-389): cyclic increment, no-op on an empty
card list. -/
def nextFlashcard (s : SessionState) : SessionState :=
  if s.currentFlashcards.length = 0 then s
  else
    displayFlashcard
      { s with currentFlashcardIndex :=
          (s.currentFlashcardIndex + 1) % s.currentFlashcards.length }

/-- `previousFlashcard` (lines 391-395): cyclic decrement computed as in
JavaScript over the integers, `(index - 1 + count) % count`. -/
def previousFlashcard (s : SessionState) : SessionState :=
  if s.currentFlashcards.length = 0 then s
  else
    displayFlashcard
      { s with currentFlashcardIndex :=
          (((s.currentFlashcardIndex : Int) - 1 + (s.currentFlashcards.length : Int)) %
            (s.currentFlashcards.length : Int)).toNat }

/-- The session-cursor invariant of the spec: whenever a roadmap is loaded,
`totalSteps` is the number of steps and the cursor is in range. -/
def cursorLoadedInv (s : SessionState) : Prop :=
  ∃ r, s.roadmapData = some r ∧ s.totalSteps = r.steps.length ∧
    s.currentStepIndex < r.steps.length

/-- One cursor mutation, with the backend response an advance would
consume. -/
inductive CursorOp
  | advance (resp : Except (List Char) NextStepResponse)
  | retreat
  | jump (i : Nat)

/-- Apply one cursor mutation to the session state. -/
def applyCursorOp (op : CursorOp) (s : SessionState) : SessionState :=
  match op with
  | .advance resp => (nextStep resp s).1
  | .retreat => previousStep s
  | .jump i => jumpToStep i s

/-- Apply a sequence of cursor mutations left to right. -/
def applyCursorOps (ops : List CursorOp) (s : SessionState) : SessionState :=
  ops.foldl (fun t op => applyCursorOp op t) s

/-- Side condition on one cursor mutation: a minimap jump carries an index
from the step list, and an adopted backend index is itself in range. -/
def opInRange (total : Nat) : CursorOp → Prop
  | .advance (.ok d) => d.success = true → d.completed = false → d.currentStepIndex < total
  | .advance (.error _) => True
  | .retreat => True
  | .jump i => i < total

/-- A concrete two-step roadmap used as a fixture. -/
def twoStepRoadmap : Roadmap :=
  { topic := "T".toList
    persona := "novice".toList
    difficulty := "easy".toList
    steps := [{ number := 1, title := "one".toList, details := [] },
              { number := 2, title := "two".toList, details := [] }] }

/-- A session with `twoStepRoadmap` loaded and the cursor at 0. -/
def loadedState : SessionState :=
  { initState with roadmapData := some twoStepRoadmap, totalSteps := 2 }

/-- The loaded session with the cursor at the last step. -/
def lastStepState : SessionState :=
  { loadedState with currentStepIndex := 1 }

/-- A concrete quiz question used as a fixture. -/
def sampleQuestion : QuizQuestion :=
  { question := "q".toList, options := [('A', "x".toList)] }

/-- A loaded session that also holds a generated quiz and a derived
flashcard, for the reset and invalidation claims. -/
def priorState : SessionState :=
  { loadedState with
    currentQuiz := some [sampleQuestion]
    currentFlashcards := [{ front := "Old".toList, back := "card".toList }]
    quizContent := [sampleQuestion] }

/-- A fresh step whose single detail line yields one flashcard. -/
def newStep : Step :=
  { number := 1, title := "new".toList, details := ["Alpha: Beta".toList] }

/-- A successful `/api/start-topic` response producing a one-step roadmap. -/
def startOkResp : StartTopicResponse :=
  { success := true, topic := "New Topic".toList, steps := [newStep], error := none }

/-- A session carrying three flashcards, for the pagination claim. -/
def threeCardState : SessionState :=
  { initState with
    currentFlashcards := [{ front := "a".toList, back := [] },
                          { front := "b".toList, back := [] },
                          { front := "c".toList, back := [] }]
    currentFlashcardIndex := 2 }

/-! Frame lemmas: which state fields each rendering helper leaves alone. -/

theorem generateFlashcards_frame (s : SessionState) :
    (generateFlashcards s).currentStepIndex = s.currentStepIndex ∧
    (generateFlashcards s).totalSteps = s.totalSteps ∧
    (generateFlashcards s).roadmapData = s.roadmapData ∧
    (generateFlashcards s).currentQuiz = s.currentQuiz ∧
    (generateFlashcards s).quizContent = s.quizContent ∧
    (generateFlashcards s).chatMessages = s.chatMessages := by
  unfold generateFlashcards
  split
  · exact ⟨rfl, rfl, rfl, rfl, rfl, rfl⟩
  · split
    · exact ⟨rfl, rfl, rfl, rfl, rfl, rfl⟩
    · exact ⟨rfl, rfl, rfl, rfl, rfl, rfl⟩

theorem updateLearningScreen_frame (s : SessionState) :
    (updateLearningScreen s).currentStepIndex = s.currentStepIndex ∧
    (updateLearningScreen s).totalSteps = s.totalSteps ∧
    (updateLearningScreen s).roadmapData = s.roadmapData ∧
    (updateLearningScreen s).currentQuiz = s.currentQuiz ∧
    (updateLearningScreen s).quizContent = s.quizContent := by
  unfold updateLearningScreen
  split
  · exact ⟨rfl, rfl, rfl, rfl, rfl⟩
  · split
    · exact ⟨rfl, rfl, rfl, rfl, rfl⟩
    · have h := generateFlashcards_frame s
      exact ⟨h.1, h.2.1, h.2.2.1, h.2.2.2.1, h.2.2.2.2.1⟩

theorem jsSplit_ne_nil (l : List Char) : jsSplit l ≠ [] := by
  induction l with
  | nil => simp [jsSplit]
  | cons c rest ih =>
    unfold jsSplit
    split
    · simp
    · cases h : jsSplit rest with
      | nil => simp
      | cons s ss => simp

theorem jsSplit_head (l : List Char) :
    (jsSplit l).headD [] = l.takeWhile (fun c => !(c == ':')) := by
  induction l with
  | nil => rfl
  | cons c rest ih =>
    unfold jsSplit
    split
    next hc =>
      simp [List.takeWhile_cons, hc]
    next hc =>
      cases h : jsSplit rest with
      | nil => exact absurd h (jsSplit_ne_nil rest)
      | cons s ss =>
        rw [h] at ih
        simp only [List.headD_cons] at ih ⊢
        simp [List.takeWhile_cons, hc, ih]

theorem jsSplit_second (l : List Char) (hl : l.contains ':' = true) :
    ((jsSplit l).drop 1).headD [] =
      ((l.dropWhile (fun c => !(c == ':'))).drop 1).takeWhile (fun c => !(c == ':')) := by
  induction l with
  | nil => simp [List.contains] at hl
  | cons c rest ih =>
    unfold jsSplit
    split
    next hc =>
      simp only [List.drop_succ_cons, List.drop_zero]
      rw [jsSplit_head rest]
      simp [List.dropWhile_cons, hc]
    next hc =>
      have hrest : rest.contains ':' = true := by
        have hcc : ¬ (':' = c) := by intro e; subst e; simp at hc
        simp only [List.contains_cons, Bool.or_eq_true] at hl
        rcases hl with h1 | h2
        · exact absurd (by simpa using h1) (by simpa using hcc)
        · exact h2
      cases h : jsSplit rest with
      | nil => exact absurd h (jsSplit_ne_nil rest)
      | cons s ss =>
        have ih2 := ih hrest
        rw [h] at ih2
        simp only [List.drop_succ_cons, List.drop_zero] at ih2 ⊢
        rw [ih2, List.dropWhile_cons]
        simp [hc]

theorem applyCursorOp_frame (op : CursorOp) (s : SessionState) :
    (applyCursorOp op s).totalSteps = s.totalSteps ∧
    (applyCursorOp op s).roadmapData = s.roadmapData := by
  cases op with
  | advance resp =>
    simp only [applyCursorOp]
    unfold nextStep
    split
    · exact ⟨rfl, rfl⟩
    · split
      · exact ⟨rfl, rfl⟩
      · split
        · split
          · exact ⟨rfl, rfl⟩
          · exact ⟨(updateLearningScreen_frame _).2.1, (updateLearningScreen_frame _).2.2.1⟩
        · exact ⟨rfl, rfl⟩
  | retreat =>
    simp only [applyCursorOp]
    unfold previousStep
    split
    · exact ⟨rfl, rfl⟩
    · exact ⟨(updateLearningScreen_frame _).2.1, (updateLearningScreen_frame _).2.2.1⟩
  | jump i =>
    simp only [applyCursorOp, jumpToStep]
    exact ⟨(updateLearningScreen_frame _).2.1, (updateLearningScreen_frame _).2.2.1⟩

theorem applyCursorOp_inv (op : CursorOp) (s : SessionState)
    (hinv : cursorLoadedInv s) (hop : opInRange s.totalSteps op) :
    cursorLoadedInv (applyCursorOp op s) := by
  obtain ⟨r, hr, htot, hidx⟩ := hinv
  cases op with
  | retreat =>
    simp only [applyCursorOp]
    unfold previousStep
    split
    · exact ⟨r, hr, htot, hidx⟩
    · refine ⟨r, ?_, ?_, ?_⟩
      · rw [(updateLearningScreen_frame _).2.2.1]; exact hr
      · rw [(updateLearningScreen_frame _).2.1]; exact htot
      · rw [(updateLearningScreen_frame _).1]
        show s.currentStepIndex - 1 < r.steps.length
        omega
  | jump i =>
    simp only [applyCursorOp, jumpToStep]
    have hi : i < r.steps.length := by
      have := hop
      simp only [opInRange] at this
      omega
    refine ⟨r, ?_, ?_, ?_⟩
    · rw [(updateLearningScreen_frame _).2.2.1]; exact hr
    · rw [(updateLearningScreen_frame _).2.1]; exact htot
    · rw [(updateLearningScreen_frame _).1]; exact hi
  | advance resp =>
    simp only [applyCursorOp]
    unfold nextStep
    split
    · exact ⟨r, hr, htot, hidx⟩
    · split
      · exact ⟨r, hr, htot, hidx⟩
      next d =>
        split
        next hs =>
          split
          · exact ⟨r, hr, htot, hidx⟩
          next hc =>
            have hd : d.currentStepIndex < r.steps.length := by
              have := hop hs (Bool.not_eq_true d.completed ▸ eq_false_of_ne_true hc)
              omega
            refine ⟨r, ?_, ?_, ?_⟩
            · rw [(updateLearningScreen_frame _).2.2.1]; exact hr
            · rw [(updateLearningScreen_frame _).2.1]; exact htot
            · rw [(updateLearningScreen_frame _).1]; exact hd
        · exact ⟨r, hr, htot, hidx⟩

/-- C1 counterexample: in a loaded two-step session the invariant holds,
but one `advanceStep` whose success response carries the out-of-range index
5 is adopted unvalidated and breaks the invariant — contradicting the claim
that the cursor stays in range for every backend response. -/
theorem cursor_invariant_cex :
    cursorLoadedInv loadedState ∧
    ¬ cursorLoadedInv (applyCursorOp (.advance (.ok ⟨true, false, 5⟩)) loadedState) := by
  constructor
  · exact ⟨twoStepRoadmap, rfl, rfl, by decide⟩
  · rintro ⟨r, hr, htot, hidx⟩
    have h1 : (applyCursorOp (.advance (.ok ⟨true, false, 5⟩)) loadedState).roadmapData
        = some twoStepRoadmap := by decide
    have h2 : (applyCursorOp (.advance (.ok ⟨true, false, 5⟩)) loadedState).currentStepIndex
        = 5 := by decide
    rw [h1] at hr
    have hrr := Option.some.inj hr
    subst hrr
    rw [h2] at hidx
    have hlen : twoStepRoadmap.steps.length = 2 := by decide
    omega

/-- C1 (amended): whenever a roadmap is loaded the cursor satisfies
`currentStepIndex < steps.length` and `totalSteps = steps.length`, and this
is preserved by every sequence of `retreatStep`, minimap `jumpToStep` with
an index from the step list, and `advanceStep` whose adopted backend index
is itself in range — the code adopts the backend-returned index without
validation, so the in-range side condition on advance responses is
necessary. -/
theorem cursor_invariant_preserved (ops : List CursorOp) (s : SessionState)
    (hinv : cursorLoadedInv s)
    (hops : ∀ op ∈ ops, opInRange s.totalSteps op) :
    cursorLoadedInv (applyCursorOps ops s) := by
  induction ops generalizing s with
  | nil => simpa [applyCursorOps] using hinv
  | cons op ops ih =>
    have hstep := applyCursorOp_inv op s hinv (hops op (List.mem_cons_self op ops))
    have htot := (applyCursorOp_frame op s).1
    have hops2 : ∀ o ∈ ops, opInRange (applyCursorOp op s).totalSteps o := by
      intro o ho
      rw [htot]
      exact hops o (List.mem_cons_of_mem op ho)
    simpa [applyCursorOps, List.foldl_cons] using ih (applyCursorOp op s) hstep hops2

/-- C1 witness: a concrete jump, retreat and in-range advance starting from
the loaded two-step session keep the invariant. -/
theorem cursor_invariant_preserved_witness :
    cursorLoadedInv (applyCursorOps [CursorOp.jump 1, CursorOp.retreat,
      CursorOp.advance (.ok ⟨true, false, 1⟩)] loadedState) :=
  cursor_invariant_preserved _ loadedState ⟨twoStepRoadmap, rfl, rfl, by decide⟩ (by
    intro op hop
    simp only [List.mem_cons, List.not_mem_nil, or_false] at hop
    rcases hop with h | h | h
    · subst h; simp only [opInRange]; decide
    · subst h; simp only [opInRange]
    · subst h; simp only [opInRange]; intro _ _; decide)

/-- C2 counterexample: on the detail line "a: b: c" the code's card back is
the trimmed second split segment "b"; the claim states the trimmed entire
remainder after the first colon, which is "b: c" (the middle conjunct
evaluates that trim), and the two differ. -/
theorem flashcard_colon_split_cex :
    generateFlashcardsFrom ["a: b: c".toList] =
      [{ front := "a".toList, back := "b".toList }] ∧
    jsTrimL " b: c".toList = "b: c".toList ∧
    "b".toList ≠ "b: c".toList :=
  ⟨by decide, by decide, by decide⟩

/-- C2 (amended): per detail line, first match wins: a line containing a
colon yields front = trimmed text before the first colon and back = the
trimmed text strictly between the first and second colon (text after a
second colon is dropped; for a single colon this is the whole remainder);
otherwise a line longer than 20 characters yields a Key Concept card;
otherwise no card; cards appear in detail order.  The spec's concrete
example, whose lines hold at most one colon, yields exactly the two stated
cards. -/
theorem flashcard_extraction_amended :
    (∀ d : List Char, d.contains ':' = true →
      extractCard d = some
        { front := jsTrimL (d.takeWhile (fun c => !(c == ':')))
          back := jsTrimL (((d.dropWhile (fun c => !(c == ':'))).drop 1).takeWhile
            (fun c => !(c == ':'))) }) ∧
    (∀ d : List Char, d.contains ':' = false → d.length > 20 →
      extractCard d = some { front := "Key Concept".toList, back := jsTrimL d }) ∧
    (∀ d : List Char, d.contains ':' = false → d.length ≤ 20 →
      extractCard d = none) ∧
    (∀ details : List (List Char),
      generateFlashcardsFrom details = details.filterMap extractCard) ∧
    generateFlashcardsFrom ["Term: Definition".toList, "short".toList,
        "A moderately long descriptive sentence.".toList] =
      [{ front := "Term".toList, back := "Definition".toList },
       { front := "Key Concept".toList,
         back := "A moderately long descriptive sentence.".toList }] := by
  refine ⟨?_, ?_, ?_, fun _ => rfl, by decide⟩
  · intro d hd
    simp only [extractCard, hd, if_true]
    rw [jsSplit_head d, jsSplit_second d hd]
  · intro d hd hlen
    simp only [extractCard, hd, Bool.false_eq_true, if_false]
    rw [if_pos hlen]
  · intro d hd hlen
    simp only [extractCard, hd, Bool.false_eq_true, if_false]
    rw [if_neg (by omega)]

/-- C2 witness: the colon branch of the amended characterization evaluated
on a concrete line. -/
theorem flashcard_extraction_amended_witness :
    extractCard "a: b".toList = some
      { front := jsTrimL ("a: b".toList.takeWhile (fun c => !(c == ':')))
        back := jsTrimL ((("a: b".toList.dropWhile (fun c => !(c == ':'))).drop 1).takeWhile
          (fun c => !(c == ':'))) } :=
  flashcard_extraction_amended.1 "a: b".toList (by decide)

/-- C3 counterexample: in a loaded session holding a generated quiz, a
minimap jump to step 1 leaves the in-memory quiz question set in place,
while the claim says every cursor mutation discards it (quiz state back to
NONE). -/
theorem quiz_not_invalidated_cex :
    (jumpToStep 1 priorState).currentQuiz = some [sampleQuestion] ∧
    some [sampleQuestion] ≠ (none : Option (List QuizQuestion)) := by
  exact ⟨by decide, by decide⟩

/-- C3 (amended): no cursor mutation touches the stored quiz: `advanceStep`,
`retreatStep` and `jumpToStep` all leave `currentQuiz` exactly as it was;
the question set is only replaced when a new quiz is generated. -/
theorem cursor_mutation_keeps_quiz (s : SessionState) (i : Nat)
    (resp : Except (List Char) NextStepResponse) :
    (previousStep s).currentQuiz = s.currentQuiz ∧
    (jumpToStep i s).currentQuiz = s.currentQuiz ∧
    ((nextStep resp s).1).currentQuiz = s.currentQuiz := by
  refine ⟨?_, ?_, ?_⟩
  · unfold previousStep
    split
    · rfl
    · exact (updateLearningScreen_frame _).2.2.2.1
  · exact (updateLearningScreen_frame _).2.2.2.1
  · unfold nextStep
    split
    · rfl
    · split
      · rfl
      · split
        · split
          · rfl
          · exact (updateLearningScreen_frame _).2.2.2.1
        · rfl

/-- C4 counterexample: from a session holding a generated quiz and a
derived flashcard, `resetToStart` leaves both in-memory caches in place,
and after a following successful `startLearning` the previous session's
quiz question set is still present — contradicting the claim that reset
clears every derived cache and that nothing carries over. -/
theorem reset_start_quiz_leak_cex :
    (resetToStart priorState).currentQuiz = some [sampleQuestion] ∧
    (resetToStart priorState).currentFlashcards =
      [{ front := "Old".toList, back := "card".toList }] ∧
    ((startLearning "New Topic".toList "p".toList "d".toList (.ok startOkResp)
        (resetToStart priorState)).1).currentQuiz = some [sampleQuestion] ∧
    some [sampleQuestion] ≠ (none : Option (List QuizQuestion)) :=
  ⟨by decide, by decide, by decide, by decide⟩

/-- C4 (amended): `resetToStart` resets the cursor to 0, discards the
roadmap and clears the chat and quiz panels, but keeps the in-memory quiz
and flashcard caches; after a following successful `startLearning` the
session holds exactly the new roadmap with cursor 0, flashcards recomputed
from the new first step and an empty chat display, while the previous
in-memory quiz question set persists unchanged. -/
theorem reset_then_start_amended (s : SessionState)
    (topicIn persona difficulty : List Char) (d : StartTopicResponse) (st : Step)
    (hsucc : d.success = true) (hhead : d.steps.head? = some st)
    (htopic : jsTrimL topicIn ≠ []) :
    (startLearning topicIn persona difficulty (.ok d) (resetToStart s)).1 =
      { currentStepIndex := 0
        totalSteps := d.steps.length
        roadmapData := some { topic := d.topic, persona := persona,
                              difficulty := difficulty, steps := d.steps }
        currentQuiz := s.currentQuiz
        currentFlashcards := generateFlashcardsFrom st.details
        currentFlashcardIndex := 0
        flashcardFlipped := false
        chatMessages := []
        quizContent := [] } := by
  have hget : d.steps[0]? = some st := by
    rw [← List.head?_eq_getElem?]
    exact hhead
  have hlen : 0 < d.steps.length := by
    cases hs : d.steps with
    | nil => rw [hs] at hhead; exact absurd hhead (by simp)
    | cons a as => simp [hs]
  simp only [startLearning]
  rw [if_neg htopic, if_pos hsucc]
  simp only [updateLearningScreen, generateFlashcards, displayFlashcard, resetToStart, hget]
  rw [if_neg (by omega)]

/-- C4 witness: the concrete prior session with a quiz, reset and restarted
on a one-step roadmap; the old quiz questions persist. -/
theorem reset_then_start_amended_witness :
    (startLearning "T2".toList "p".toList "d".toList (.ok startOkResp)
        (resetToStart priorState)).1 =
      { currentStepIndex := 0
        totalSteps := startOkResp.steps.length
        roadmapData := some { topic := startOkResp.topic, persona := "p".toList,
                              difficulty := "d".toList, steps := startOkResp.steps }
        currentQuiz := priorState.currentQuiz
        currentFlashcards := generateFlashcardsFrom newStep.details
        currentFlashcardIndex := 0
        flashcardFlipped := false
        chatMessages := []
        quizContent := [] } :=
  reset_then_start_amended priorState "T2".toList "p".toList "d".toList startOkResp newStep
    (by decide) (by decide) (by decide)

/-- C7 counterexample: a backend-reported failure (`success:false`) of
`/api/next-step` in a loaded mid-roadmap session, and of `/api/submit-quiz`,
are silently swallowed: no alert is raised (the claim requires a blocking
notification for every failing outcome); the state is indeed unchanged. -/
theorem silent_backend_failure_cex :
    nextStep (.ok ⟨false, false, 0⟩) loadedState =
      (loadedState, { backendCalled := true, completionShown := false, alert := none }) ∧
    submitQuiz (.ok ⟨false, 0, 0, 0⟩) loadedState = (loadedState, none, none) :=
  ⟨by decide, by decide⟩

/-- C7 (amended): network or parse failures of `startLearning`, `nextStep`
and `submitQuiz` all raise an alert and leave the session state unchanged,
and a backend-reported failure of `startLearning` does too; but
backend-reported failures (`success:false`) of `nextStep` and `submitQuiz`
are silently ignored — no notification — though the state is still left
unchanged. -/
theorem failure_surfacing_amended (s : SessionState) :
    (∀ topicIn persona difficulty e, jsTrimL topicIn ≠ [] →
      startLearning topicIn persona difficulty (.error e) s = (s, some (errAlert e))) ∧
    (∀ topicIn persona difficulty d, jsTrimL topicIn ≠ [] →
      (d : StartTopicResponse).success = false →
      startLearning topicIn persona difficulty (.ok d) s =
        (s, some (errAlert (d.error.getD "Failed to generate roadmap".toList)))) ∧
    (∀ e, s.currentStepIndex + 1 < s.totalSteps →
      nextStep (.error e) s =
        (s, { backendCalled := true, completionShown := false, alert := some (errAlert e) })) ∧
    (∀ d : NextStepResponse, s.currentStepIndex + 1 < s.totalSteps → d.success = false →
      nextStep (.ok d) s =
        (s, { backendCalled := true, completionShown := false, alert := none })) ∧
    (∀ e, submitQuiz (.error e) s = (s, some (errAlert e), none)) ∧
    (∀ d : SubmitQuizResponse, d.success = false →
      submitQuiz (.ok d) s = (s, none, none)) := by
  refine ⟨?_, ?_, ?_, ?_, ?_, ?_⟩
  · intro topicIn persona difficulty e htopic
    simp only [startLearning]
    rw [if_neg htopic]
  · intro topicIn persona difficulty d htopic hfail
    simp only [startLearning]
    rw [if_neg htopic, if_neg (by simp [hfail])]
  · intro e hmid
    simp only [nextStep]
    rw [if_neg (Nat.not_le.mpr hmid)]
  · intro d hmid hfail
    simp only [nextStep]
    rw [if_neg (Nat.not_le.mpr hmid), if_neg (by simp [hfail])]
  · intro e
    rfl
  · intro d hfail
    simp only [submitQuiz]
    rw [if_neg (by simp [hfail])]

/-- C7 witness: a network failure of start alerting with the error text,
and a silent backend-reported advance failure, both on the loaded fixture
session. -/
theorem failure_surfacing_amended_witness :
    startLearning "T".toList "p".toList "d".toList (.error "net down".toList) loadedState =
      (loadedState, some (errAlert "net down".toList)) ∧
    nextStep (.ok ⟨false, false, 0⟩) loadedState =
      (loadedState, { backendCalled := true, completionShown := false, alert := none }) :=
  ⟨(failure_surfacing_amended loadedState).1 "T".toList "p".toList "d".toList
      "net down".toList (by decide),
   (failure_surfacing_amended loadedState).2.2.2.1 ⟨false, false, 0⟩ (by decide) rfl⟩

theorem sendChat_error_eq (input e : List Char) (s : SessionState)
    (h : jsTrimL input ≠ []) :
    sendChat input (.error e) s =
      (addChatMessage .assistant (errAlert e) (addChatMessage .user (jsTrimL input) s),
       some (jsTrimL input)) := by
  simp only [sendChat]
  rw [if_neg h]

theorem sendChat_ok_true_eq (input : List Char) (d : ChatResponse) (s : SessionState)
    (h : jsTrimL input ≠ []) (hs : d.success = true) :
    sendChat input (.ok d) s =
      (addChatMessage .assistant d.response (addChatMessage .user (jsTrimL input) s),
       some (jsTrimL input)) := by
  simp only [sendChat]
  rw [if_neg h, if_pos hs]

theorem sendChat_ok_false_eq (input : List Char) (d : ChatResponse) (s : SessionState)
    (h : jsTrimL input ≠ []) (hs : d.success = false) :
    sendChat input (.ok d) s =
      (addChatMessage .assistant chatFallback (addChatMessage .user (jsTrimL input) s),
       some (jsTrimL input)) := by
  simp only [sendChat]
  rw [if_neg h, if_neg (by simp [hs])]

/-- C8 counterexample: for the chat input `"* hi"` the code renders `"hi"`
(the display transform also trims the result), while the claim's transform
— remove the markdown characters and collapse blank lines, nothing else —
gives `" hi"`; the message sent to the backend is the untransformed
`"* hi"`. -/
theorem chat_display_trim_cex :
    ((sendChat "* hi".toList (.ok ⟨true, "ok".toList⟩) initState).1.chatMessages.map
        ChatMessage.text) = ["hi".toList, "ok".toList] ∧
    (sendChat "* hi".toList (.ok ⟨true, "ok".toList⟩) initState).2 = some "* hi".toList ∧
    specChatRender "* hi".toList = " hi".toList ∧
    "hi".toList ≠ " hi".toList :=
  ⟨by decide, by decide, by decide, by decide⟩

/-- C8 (amended): the rendered chat message is the trimmed input with every
`*` and `#` removed, blank-line runs collapsed to one newline, and the
result trimmed of leading and trailing whitespace; the message sent to the
backend is the trimmed user input with no display transform applied.  The
spec's concrete example renders as stated. -/
theorem chat_display_transform_amended (input : List Char)
    (resp : Except (List Char) ChatResponse) (s : SessionState)
    (h : jsTrimL input ≠ []) :
    (sendChat input resp s).2 = some (jsTrimL input) ∧
    ((sendChat input resp s).1).chatMessages[s.chatMessages.length]? =
      some { role := ChatRole.user
             text := jsTrimL (collapseBlankLines (stripStarHash (jsTrimL input))) } ∧
    cleanChatText "**Key** #point\n\n\nmore".toList = "Key point\nmore".toList := by
  have key : ∀ u a : ChatMessage,
      ((s.chatMessages ++ [u]) ++ [a])[s.chatMessages.length]? = some u := by
    intro u a
    rw [List.append_assoc, List.getElem?_append_right (Nat.le_refl _)]
    simp
  cases resp with
  | error e =>
    rw [sendChat_error_eq input e s h]
    exact ⟨rfl, key _ _, by decide⟩
  | ok d =>
    cases hs : d.success
    · rw [sendChat_ok_false_eq input d s h hs]
      exact ⟨rfl, key _ _, by decide⟩
    · rw [sendChat_ok_true_eq input d s h hs]
      exact ⟨rfl, key _ _, by decide⟩

/-- C8 witness: the amended transform instantiated at the concrete input
`"* hi"`. -/
theorem chat_display_transform_amended_witness :
    (sendChat "* hi".toList (.ok ⟨true, "ok".toList⟩) initState).2 =
      some (jsTrimL "* hi".toList) ∧
    ((sendChat "* hi".toList (.ok ⟨true, "ok".toList⟩) initState).1).chatMessages[
        (initState.chatMessages.length)]? =
      some { role := ChatRole.user
             text := jsTrimL (collapseBlankLines (stripStarHash (jsTrimL "* hi".toList))) } ∧
    cleanChatText "**Key** #point\n\n\nmore".toList = "Key point\nmore".toList :=
  chat_display_transform_amended "* hi".toList (.ok ⟨true, "ok".toList⟩) initState (by decide)

/-- C9 counterexample: a backend-reported chat failure appends the fixed
fallback text, but a network failure appends `'Error: ' + message`, which
varies with the error — so the failure append is not the same fixed text
for every failure, as the claim states. -/
theorem chat_fallback_not_fixed_cex :
    ((sendChat "hi".toList (.ok ⟨false, []⟩) initState).1.chatMessages.map
        ChatMessage.text) = ["hi".toList, chatFallback] ∧
    ((sendChat "hi".toList (.error "timeout".toList) initState).1.chatMessages.map
        ChatMessage.text) = ["hi".toList, "Error: timeout".toList] ∧
    chatFallback ≠ "Error: timeout".toList :=
  ⟨by decide, by decide, by decide⟩

/-- C9 (amended): the user message is appended optimistically — the entry
at the old transcript length is the user message for every response —, a
successful response appends the assistant reply, a backend-reported failure
appends the fixed fallback text, and a network failure appends
`'Error: '` followed by the error message (not a fixed text); every
appended entry goes through the same display transform. -/
theorem chat_append_amended (input : List Char) (s : SessionState)
    (h : jsTrimL input ≠ []) :
    (∀ resp, ((sendChat input resp s).1).chatMessages[s.chatMessages.length]? =
      some { role := ChatRole.user, text := cleanChatText (jsTrimL input) }) ∧
    (∀ d : ChatResponse, d.success = true →
      ((sendChat input (.ok d) s).1).chatMessages =
        s.chatMessages ++
          [{ role := ChatRole.user, text := cleanChatText (jsTrimL input) },
           { role := ChatRole.assistant, text := cleanChatText d.response }]) ∧
    (∀ d : ChatResponse, d.success = false →
      ((sendChat input (.ok d) s).1).chatMessages =
        s.chatMessages ++
          [{ role := ChatRole.user, text := cleanChatText (jsTrimL input) },
           { role := ChatRole.assistant, text := cleanChatText chatFallback }]) ∧
    (∀ e, ((sendChat input (.error e) s).1).chatMessages =
      s.chatMessages ++
        [{ role := ChatRole.user, text := cleanChatText (jsTrimL input) },
         { role := ChatRole.assistant, text := cleanChatText (errAlert e) }]) := by
  have key : ∀ u a : ChatMessage,
      ((s.chatMessages ++ [u]) ++ [a])[s.chatMessages.length]? = some u := by
    intro u a
    rw [List.append_assoc, List.getElem?_append_right (Nat.le_refl _)]
    simp
  refine ⟨?_, ?_, ?_, ?_⟩
  · intro resp
    cases resp with
    | error e =>
      rw [sendChat_error_eq input e s h]
      exact key _ _
    | ok d =>
      cases hs : d.success
      · rw [sendChat_ok_false_eq input d s h hs]
        exact key _ _
      · rw [sendChat_ok_true_eq input d s h hs]
        exact key _ _
  · intro d hs
    rw [sendChat_ok_true_eq input d s h hs]
    simp [addChatMessage]
  · intro d hs
    rw [sendChat_ok_false_eq input d s h hs]
    simp [addChatMessage]
  · intro e
    rw [sendChat_error_eq input e s h]
    simp [addChatMessage]

/-- C9 witness: the three append shapes at the concrete input `"hi"`. -/
theorem chat_append_amended_witness :
    ((sendChat "hi".toList (.ok ⟨true, "yes".toList⟩) initState).1).chatMessages =
      initState.chatMessages ++
        [{ role := ChatRole.user, text := cleanChatText (jsTrimL "hi".toList) },
         { role := ChatRole.assistant, text := cleanChatText "yes".toList }] ∧
    ((sendChat "hi".toList (.error "timeout".toList) initState).1).chatMessages =
      initState.chatMessages ++
        [{ role := ChatRole.user, text := cleanChatText (jsTrimL "hi".toList) },
         { role := ChatRole.assistant, text := cleanChatText (errAlert "timeout".toList) }] :=
  ⟨(chat_append_amended "hi".toList initState (by decide)).2.1 ⟨true, "yes".toList⟩ rfl,
   (chat_append_amended "hi".toList initState (by decide)).2.2.2 "timeout".toList⟩

/-- C5: in a loaded session whose cursor is not at the last step,
`nextStep` on a success response that does not signal completion adopts the
backend-returned index as the new cursor (not necessarily cursor plus one);
on a success response with `completed` it shows the completion modal and
leaves the cursor alone; and on a network or parse failure it alerts and
leaves the state exactly as it was. -/
theorem advance_adopts_backend_index (s : SessionState)
    (h : s.currentStepIndex + 1 < s.totalSteps) :
    (∀ d : NextStepResponse, d.success = true → d.completed = false →
      (nextStep (.ok d) s).1.currentStepIndex = d.currentStepIndex ∧
      (nextStep (.ok d) s).2.alert = none) ∧
    (∀ d : NextStepResponse, d.success = true → d.completed = true →
      nextStep (.ok d) s =
        (s, { backendCalled := true, completionShown := true, alert := none })) ∧
    (∀ e : List Char, nextStep (.error e) s =
      (s, { backendCalled := true, completionShown := false, alert := some (errAlert e) })) := by
  have hguard : ¬ (s.currentStepIndex + 1 ≥ s.totalSteps) := Nat.not_le.mpr h
  refine ⟨?_, ?_, ?_⟩
  · intro d hs hc
    unfold nextStep
    rw [if_neg hguard]
    simp only [hs, if_true, hc, Bool.false_eq_true, if_false]
    exact ⟨(updateLearningScreen_frame _).1, trivial⟩
  · intro d hs hc
    unfold nextStep
    rw [if_neg hguard]
    simp [hs, hc]
  · intro e
    unfold nextStep
    rw [if_neg hguard]

/-- C5 witness: a concrete two-step session at cursor 0 adopting backend
index 1. -/
theorem advance_adopts_backend_index_witness :
    (nextStep (.ok ⟨true, false, 1⟩) loadedState).1.currentStepIndex = 1 ∧
    (nextStep (.ok ⟨true, false, 1⟩) loadedState).2.alert = none :=
  (advance_adopts_backend_index loadedState (by decide)).1 ⟨true, false, 1⟩ rfl rfl

/-- C6: at the last step index (`totalSteps - 1`) `nextStep` shows the
completion modal, does not contact the backend (the outcome is the same for
every response, and `backendCalled` is false) and leaves the session state
unchanged. -/
theorem advance_at_last_completes (s : SessionState)
    (resp : Except (List Char) NextStepResponse)
    (h1 : 1 ≤ s.totalSteps) (h2 : s.currentStepIndex = s.totalSteps - 1) :
    nextStep resp s =
      (s, { backendCalled := false, completionShown := true, alert := none }) := by
  unfold nextStep
  rw [if_pos (by omega)]

/-- C6 witness: the fixture session at its last step, with an arbitrary
failing response that is never consulted. -/
theorem advance_at_last_completes_witness :
    nextStep (.error "down".toList) lastStepState =
      (lastStepState, { backendCalled := false, completionShown := true, alert := none }) :=
  advance_at_last_completes lastStepState (.error "down".toList) (by decide) (by decide)

/-- C10: recomputing the flashcards for an existing step resets the
pagination index to 0 and unflips the card; on a non-empty card list the
cyclic `nextFlashcard` and `previousFlashcard` keep the index strictly
below the card count; on an empty card list both are no-ops. -/
theorem flashcard_pagination_inv :
    (∀ s : SessionState, ∀ r : Roadmap, ∀ step : Step,
      s.roadmapData = some r → r.steps[s.currentStepIndex]? = some step →
      (generateFlashcards s).currentFlashcards = generateFlashcardsFrom step.details ∧
      (generateFlashcards s).currentFlashcardIndex = 0 ∧
      (generateFlashcards s).flashcardFlipped = false) ∧
    (∀ s : SessionState, s.currentFlashcards ≠ [] →
      (nextFlashcard s).currentFlashcardIndex <
        (nextFlashcard s).currentFlashcards.length ∧
      (previousFlashcard s).currentFlashcardIndex <
        (previousFlashcard s).currentFlashcards.length) ∧
    (∀ s : SessionState, s.currentFlashcards = [] →
      nextFlashcard s = s ∧ previousFlashcard s = s) := by
  refine ⟨?_, ?_, ?_⟩
  · intro s r step hr hstep
    unfold generateFlashcards
    rw [hr]
    simp only [hstep]
    exact ⟨rfl, rfl, rfl⟩
  · intro s hne
    have hlen : 0 < s.currentFlashcards.length := List.length_pos.mpr hne
    constructor
    · unfold nextFlashcard
      rw [if_neg (by omega)]
      simp only [displayFlashcard]
      exact Nat.mod_lt _ hlen
    · unfold previousFlashcard
      rw [if_neg (by omega)]
      simp only [displayFlashcard]
      have hn : (0 : Int) < (s.currentFlashcards.length : Int) := by exact_mod_cast hlen
      have hnn : 0 ≤ ((s.currentFlashcardIndex : Int) - 1 + (s.currentFlashcards.length : Int)) %
          (s.currentFlashcards.length : Int) := Int.emod_nonneg _ (by omega)
      have hlt : ((s.currentFlashcardIndex : Int) - 1 + (s.currentFlashcards.length : Int)) %
          (s.currentFlashcards.length : Int) < (s.currentFlashcards.length : Int) :=
        Int.emod_lt_of_pos _ hn
      omega
  · intro s hempty
    have hlen : s.currentFlashcards.length = 0 := by rw [hempty]; rfl
    exact ⟨by unfold nextFlashcard; rw [if_pos hlen],
           by unfold previousFlashcard; rw [if_pos hlen]⟩

/-- C10 witness: in a three-card session at index 2, both navigations keep
the index in range, and an empty-card session is untouched. -/
theorem flashcard_pagination_inv_witness :
    ((nextFlashcard threeCardState).currentFlashcardIndex <
        (nextFlashcard threeCardState).currentFlashcards.length ∧
      (previousFlashcard threeCardState).currentFlashcardIndex <
        (previousFlashcard threeCardState).currentFlashcards.length) ∧
    (nextFlashcard initState = initState ∧ previousFlashcard initState = initState) :=
  ⟨flashcard_pagination_inv.2.1 threeCardState (by decide),
   flashcard_pagination_inv.2.2 initState rfl⟩

end AssistantL
